import Mathlib

/-
Verification development for the dify-claude-connector bridge (src/index.js).

The program is a stdin/stdout JSON-RPC bridge in JavaScript.  We embed the
message-handling core shallowly:

* JSON values are modelled by `JVal`.  Numbers are modelled as integers
  (the protocol traffic the program handles uses integer ids and error
  codes); the JavaScript value `NaN`, which the coercion `Number(x)` can
  produce, is modelled by the explicit constructor `JVal.nan`.  Numerals
  with a fraction or exponent part are outside the modelled fragment, as
  are non-BMP string escapes and the JavaScript reordering of
  integer-like object keys.
* JavaScript objects are ordered association lists; a key is `undefined`
  exactly when it is absent from the list (objects handled by this code
  originate from `JSON.parse` or from object literals, so no stored value
  is ever `undefined`).
* Fallible operations (`JSON.parse`) return `Option`; the single reachable
  runtime exception of the core (property access on `null`) is modelled by
  an `Option` result of the message handler.
-/

namespace Bridge

inductive JVal where
  | null : JVal
  | nan : JVal
  | bool : Bool → JVal
  | num : Int → JVal
  | str : String → JVal
  | arr : List JVal → JVal
  | obj : List (String × JVal) → JVal

/-- First-match lookup in an object field list (JS objects have unique keys). -/
def lookupF : List (String × JVal) → String → Option JVal
  | [], _ => none
  | (k, v) :: r, key => if k = key then some v else lookupF r key

/-- Modelled JS property read `o[key]`; `none` models `undefined`. -/
def getF : JVal → String → Option JVal
  | JVal.obj fs, key => lookupF fs key
  | _, _ => none

/-- Replace the value of `key` in place, or append it (JS assignment / spread-override order). -/
def setFL : List (String × JVal) → String → JVal → List (String × JVal)
  | [], key, v => [(key, v)]
  | (k, w) :: r, key, v => if k = key then (k, v) :: r else (k, w) :: setFL r key v

/-- Modelled JS property write on an object value. -/
def setF : JVal → String → JVal → JVal
  | JVal.obj fs, key, v => JVal.obj (setFL fs key v)
  | o, _, _ => o

def hasF (o : JVal) (key : String) : Bool := (getF o key).isSome

/-- JS truthiness. -/
def truthy : JVal → Bool
  | JVal.null => false
  | JVal.nan => false
  | JVal.bool b => b
  | JVal.num n => !(n == 0)
  | JVal.str s => !s.isEmpty
  | JVal.arr _ => true
  | JVal.obj _ => true

def truthyO : Option JVal → Bool
  | none => false
  | some v => truthy v

/-- Test for a truthy value of JS type object: a non-null plain object or an array. -/
def isObjLike : JVal → Bool
  | JVal.obj _ => true
  | JVal.arr _ => true
  | _ => false

/-- Nullish coalescing of a property read: `undefined` (absent) and `null` both fall through. -/
def coal (o : Option JVal) (d : JVal) : JVal :=
  match o with
  | some JVal.null => d
  | some v => v
  | none => d

/-- Whitespace recognised by JS `trim`, string splitting and the regex class. -/
def jsIsWs (c : Char) : Bool :=
  c = ' ' || c = '\t' || c = '\n' || c = '\r' || c = '\x0b' || c = '\x0c'

/-- Modelled JS `trim` on a character list. -/
def trimL (cs : List Char) : List Char :=
  ((cs.dropWhile jsIsWs).reverse.dropWhile jsIsWs).reverse

def digitChar (d : Nat) : Char := Char.ofNat (48 + d)

/-- Worker for the decimal numeral, fuel-indexed so that it is structurally
recursive and evaluates in the kernel; any fuel above the number suffices. -/
def natDigitsAux : Nat → Nat → List Char
  | 0, _ => []
  | fuel + 1, n =>
    if n < 10 then [digitChar n]
    else natDigitsAux fuel (n / 10) ++ [digitChar (n % 10)]

/-- Decimal numeral of a natural number, as JS number-to-string produces it. -/
def natDigits (n : Nat) : List Char := natDigitsAux (n + 1) n

def natStr (n : Nat) : String := String.mk (natDigits n)

/-- Decimal rendering of an integer, as JS string coercion produces it. -/
def intStr (n : Int) : String :=
  if n < 0 then "-" ++ natStr (-n).toNat else natStr n.toNat

/-- Comma-separated join, as `Array.prototype.toString` produces. -/
def commaJoin : List String → String
  | [] => ""
  | [s] => s
  | s :: r => s ++ "," ++ commaJoin r

mutual

/-- Modelled JS string coercion `String(v)` (also used by template literals). -/
def jsToString : JVal → String
  | JVal.null => "null"
  | JVal.nan => "NaN"
  | JVal.bool true => "true"
  | JVal.bool false => "false"
  | JVal.num n => intStr n
  | JVal.str s => s
  | JVal.arr l => commaJoin (jsArrElems l)
  | JVal.obj _ => "[object Object]"

/-- Element strings of an array join: `null` elements render as the empty string. -/
def jsArrElems : List JVal → List String
  | [] => []
  | JVal.null :: r => "" :: jsArrElems r
  | v :: r => jsToString v :: jsArrElems r

end

/-- Value of a non-empty all-digit character list. -/
def digitsVal : List Char → Option Nat
  | [] => none
  | cs => go cs 0
 where
  go : List Char → Nat → Option Nat
    | [], acc => some acc
    | c :: r, acc => if c.isDigit then go r (acc * 10 + (c.toNat - 48)) else none

/-- Modelled JS `Number` coercion of a string, restricted to the integer
fragment: surrounding whitespace is trimmed, the empty string is `0`, an
optional sign followed by decimal digits is read, and every other form
(including fraction, exponent and hexadecimal numerals, which are outside
the modelled fragment) is `NaN`, rendered as `none`. -/
def strToInt (cs : List Char) : Option Int :=
  let t := trimL cs
  if t.isEmpty then some 0
  else
    match t with
    | '-' :: ds => (digitsVal ds).map (fun v => -(v : Int))
    | '+' :: ds => (digitsVal ds).map (fun v => (v : Int))
    | ds => (digitsVal ds).map (fun v => (v : Int))

/-- Modelled JS `Number(v)` coercion; `none` is `NaN`. -/
def jsNumber : JVal → Option Int
  | JVal.null => some 0
  | JVal.nan => none
  | JVal.bool b => some (if b then 1 else 0)
  | JVal.num n => some n
  | JVal.str s => strToInt s.toList
  | JVal.arr l => strToInt (jsToString (JVal.arr l)).toList
  | JVal.obj l => strToInt (jsToString (JVal.obj l)).toList

/-- JSON source whitespace. -/
def jsonWs (c : Char) : Bool := c = ' ' || c = '\t' || c = '\n' || c = '\r'

def skipWs (cs : List Char) : List Char := cs.dropWhile jsonWs

/-- Translation of one string escape; surrogate halves are outside the
modelled fragment and collapse to the default of `Char.ofNat`. -/
def hexVal (c : Char) : Option Nat :=
  if c.isDigit then some (c.toNat - 48)
  else if 'a' ≤ c && c ≤ 'f' then some (c.toNat - 87)
  else if 'A' ≤ c && c ≤ 'F' then some (c.toNat - 55)
  else none

/-- Body of a JSON string literal after the opening quote: the decoded
characters and the input after the closing quote. -/
def parseStrBody : List Char → Option (List Char × List Char)
  | [] => none
  | '"' :: r => some ([], r)
  | '\\' :: '"' :: r => (parseStrBody r).map (fun p => ('"' :: p.1, p.2))
  | '\\' :: '\\' :: r => (parseStrBody r).map (fun p => ('\\' :: p.1, p.2))
  | '\\' :: '/' :: r => (parseStrBody r).map (fun p => ('/' :: p.1, p.2))
  | '\\' :: 'b' :: r => (parseStrBody r).map (fun p => ('\x08' :: p.1, p.2))
  | '\\' :: 'f' :: r => (parseStrBody r).map (fun p => ('\x0c' :: p.1, p.2))
  | '\\' :: 'n' :: r => (parseStrBody r).map (fun p => ('\n' :: p.1, p.2))
  | '\\' :: 'r' :: r => (parseStrBody r).map (fun p => ('\r' :: p.1, p.2))
  | '\\' :: 't' :: r => (parseStrBody r).map (fun p => ('\t' :: p.1, p.2))
  | '\\' :: 'u' :: h1 :: h2 :: h3 :: h4 :: r =>
    (match hexVal h1, hexVal h2, hexVal h3, hexVal h4 with
     | some a, some b, some c, some d =>
       (parseStrBody r).map
         (fun p => (Char.ofNat (((a * 16 + b) * 16 + c) * 16 + d) :: p.1, p.2))
     | _, _, _, _ => none)
  | '\\' :: _ => none
  | c :: r => if c.toNat < 32 then none else (parseStrBody r).map (fun p => (c :: p.1, p.2))

/-- Digits of a JSON integer numeral: a single zero, or a nonzero digit
followed by digits.  Fraction and exponent parts are outside the modelled
fragment, so a following dot or exponent letter rejects. -/
def parseNumTail : List Char → Option (Nat × List Char)
  | '0' :: r => some (0, r)
  | c :: r =>
    if c.isDigit && c ≠ '0' then go r (c.toNat - 48) else none
  | [] => none
 where
  go : List Char → Nat → Nat × List Char
    | c :: r, acc => if c.isDigit then go r (acc * 10 + (c.toNat - 48)) else (acc, c :: r)
    | [], acc => (acc, [])

def numRejectNext : List Char → Bool
  | c :: _ => c = '.' || c = 'e' || c = 'E'
  | [] => false

/-- Removal of a key from an object field list. -/
def removeF : List (String × JVal) → String → List (String × JVal)
  | [], _ => []
  | (k, v) :: r, key => if k = key then removeF r key else (k, v) :: removeF r key

/-- Member accumulation with the duplicate-key rule of `JSON.parse`: the
first occurrence of a key fixes its position, the last fixes its value. -/
def insertMember (k : String) (v : JVal) (later : List (String × JVal)) :
    List (String × JVal) :=
  match lookupF later k with
  | some w => (k, w) :: removeF later k
  | none => (k, v) :: later

mutual

/-- Recursive-descent JSON value parser (fuel-indexed). -/
def parseV : Nat → List Char → Option (JVal × List Char)
  | 0, _ => none
  | fuel + 1, cs =>
    match skipWs cs with
    | 'n' :: 'u' :: 'l' :: 'l' :: r => some (JVal.null, r)
    | 't' :: 'r' :: 'u' :: 'e' :: r => some (JVal.bool true, r)
    | 'f' :: 'a' :: 'l' :: 's' :: 'e' :: r => some (JVal.bool false, r)
    | '"' :: r => (parseStrBody r).map (fun p => (JVal.str (String.mk p.1), p.2))
    | '[' :: r =>
      (match skipWs r with
       | ']' :: r2 => some (JVal.arr [], r2)
       | _ => (parseItems fuel (skipWs r)).map (fun p => (JVal.arr p.1, p.2)))
    | '{' :: r =>
      (match skipWs r with
       | '}' :: r2 => some (JVal.obj [], r2)
       | _ => (parseMembers fuel (skipWs r)).map (fun p => (JVal.obj p.1, p.2)))
    | '-' :: r =>
      (match parseNumTail r with
       | some (v, r2) => if numRejectNext r2 then none else some (JVal.num (-(v : Int)), r2)
       | none => none)
    | c :: r =>
      if c.isDigit then
        match parseNumTail (c :: r) with
        | some (v, r2) => if numRejectNext r2 then none else some (JVal.num (v : Int), r2)
        | none => none
      else none
    | [] => none

/-- Comma-separated array items up to the closing bracket. -/
def parseItems : Nat → List Char → Option (List JVal × List Char)
  | 0, _ => none
  | fuel + 1, cs =>
    match parseV fuel cs with
    | some (v, r) =>
      (match skipWs r with
       | ',' :: r2 => (parseItems fuel r2).map (fun p => (v :: p.1, p.2))
       | ']' :: r2 => some ([v], r2)
       | _ => none)
    | none => none

/-- Comma-separated object members up to the closing brace; duplicate keys
keep the first position and the last value, as `JSON.parse` does. -/
def parseMembers : Nat → List Char → Option (List (String × JVal) × List Char)
  | 0, _ => none
  | fuel + 1, cs =>
    match skipWs cs with
    | '"' :: r =>
      (match parseStrBody r with
       | some (kcs, r2) =>
         (match skipWs r2 with
          | ':' :: r3 =>
            (match parseV fuel r3 with
             | some (v, r4) =>
               (match skipWs r4 with
                | ',' :: r5 =>
                  (parseMembers fuel r5).map (fun p => (insertMember (String.mk kcs) v p.1, p.2))
                | '}' :: r5 => some ([(String.mk kcs, v)], r5)
                | _ => none)
             | none => none)
          | _ => none)
       | none => none)
    | _ => none

end

/-- Modelled `JSON.parse`: parse one value and require only trailing
whitespace; `none` models a thrown `SyntaxError`. -/
def jsonParse (cs : List Char) : Option JVal :=
  match parseV (cs.length + 1) cs with
  | some (v, rest) => if (skipWs rest).isEmpty then some v else none
  | none => none

/-- Characters kept by the sanitizer character class. -/
def isNameChar (c : Char) : Bool :=
  ('a' ≤ c && c ≤ 'z') || ('A' ≤ c && c ≤ 'Z') || ('0' ≤ c && c ≤ '9') || c = '_' || c = '-'

def cleanChar (c : Char) : Char := if isNameChar c then c else '_'

/-- Embedding of `sanitizeToolName(name, fallbackBase)` (src/index.js:20).
The name is string-coerced (after a nullish fallback to the empty string),
characters outside the class are replaced by underscores, the result is cut
to 64 characters, and an empty result falls back to `fallbackBase`. -/
def sanitizeToolName (name : JVal) (fallbackBase : String) : String :=
  let s := jsToString (match name with | JVal.null => JVal.str "" | v => v)
  let cleaned := String.mk ((s.toList.map cleanChar).take 64)
  if cleaned = "" then fallbackBase else cleaned

/-- Positional fallback name of the descriptor at zero-based index `i`. -/
def fbName (i : Nat) : String := "tool_" ++ natStr (i + 1)

/-- Index-carrying map used to embed `Array.prototype.map` with index. -/
def mapWithIndex (f : Nat → JVal → JVal) : Nat → List JVal → List JVal
  | _, [] => []
  | i, x :: r => f i x :: mapWithIndex f (i + 1) r

/-- Object fields produced by spreading an array into an object literal:
one field per index, keyed by its decimal numeral. -/
def spreadArr (xs : List JVal) : List (String × JVal) :=
  go 0 xs
 where
  go : Nat → List JVal → List (String × JVal)
    | _, [] => []
    | i, x :: r => (natStr i, x) :: go (i + 1) r

/-- Name argument of the sanitizer call: the descriptor name with a nullish
fallback to the positional name. -/
def nameArg (i : Nat) (t : JVal) : JVal :=
  match getF t "name" with
  | some JVal.null => JVal.str (fbName i)
  | some v => v
  | none => JVal.str (fbName i)

/-- Embedding of the per-descriptor body of `repairToolsInInitializeResult`
(src/index.js:29): non-object descriptors pass through, objects (and arrays,
which the JS object test also accepts and the spread flattens into indexed
fields) get a sanitized `name`. -/
def fixTool (i : Nat) (t : JVal) : JVal :=
  match t with
  | JVal.obj fs => setF (JVal.obj fs) "name" (JVal.str (sanitizeToolName (nameArg i t) (fbName i)))
  | JVal.arr xs =>
    setF (JVal.obj (spreadArr xs)) "name" (JVal.str (sanitizeToolName (nameArg i t) (fbName i)))
  | v => v

/-- Embedding of `repairToolsInInitializeResult(result)` (src/index.js:27). -/
def repairToolsInInitializeResult (result : JVal) : JVal :=
  if !truthy result then result
  else
    match getF result "tools" with
    | some (JVal.arr ts) => setF result "tools" (JVal.arr (mapWithIndex fixTool 0 ts))
    | _ => result

/-- Embedding of `sendResponse(obj)` (src/index.js:38), returning the single
frame written to standard output. -/
def sendResponse (o : JVal) : JVal :=
  let idO := if isObjLike o then getF o "id" else none
  let resO := if isObjLike o then getF o "result" else none
  let errO := if isObjLike o then getF o "error" else none
  let l1 := [("jsonrpc", JVal.str "2.0")]
  let l2 := l1 ++ (match idO with | some v => [("id", v)] | none => [])
  let l3 := l2 ++ (match resO with | some v => [("result", v)] | none => [])
  let l4 := l3 ++ (match errO with | some v => [("error", v)] | none => [])
  let l5 :=
    if resO.isNone && errO.isNone then
      l4 ++ [("error", JVal.obj [("code", JVal.num (-32603)),
                                 ("message", JVal.str "Internal error: empty response")])]
    else l4
  let l6 := if idO.isNone then l5 ++ [("id", JVal.null)] else l5
  JVal.obj l6

/-- Embedding of `sendNotification(method, params)` (src/index.js:56); the
call sites always pass a string method, so the string coercion is the
identity, and `params` gets a nullish fallback to the empty object. -/
def sendNotification (method : String) (params : JVal) : JVal :=
  JVal.obj [("jsonrpc", JVal.str "2.0"), ("method", JVal.str method),
            ("params", match params with | JVal.null => JVal.obj [] | v => v)]

/-- Embedding of `makeError(id, code, message, data)` (src/index.js:65). -/
def makeError (id : JVal) (code : Int) (message : String) (data : Option JVal) : JVal :=
  JVal.obj [("jsonrpc", JVal.str "2.0"), ("id", id),
            ("error", JVal.obj ([("code", JVal.num code), ("message", JVal.str message)] ++
              (match data with | some d => [("data", d)] | none => [])))]

/-- Embedding of `normalizeRemoteError(err)` (src/index.js:156). -/
def normalizeRemoteError (err : JVal) : JVal :=
  if !isObjLike err then
    JVal.obj [("code", JVal.num (-32000)),
              ("message", JVal.str (jsToString (match err with
                 | JVal.null => JVal.str "Remote error" | v => v)))]
  else
    let codeRaw :=
      match getF err "code" with
      | some c => c
      | none => match getF err "status" with
        | some s => s
        | none => JVal.num (-32000)
    let codeV := match jsNumber codeRaw with | some n => JVal.num n | none => JVal.nan
    let msgRaw :=
      match getF err "message" with
      | some JVal.null | none =>
        (match getF err "error" with
         | some JVal.null | none =>
           (match getF err "reason" with
            | some JVal.null | none => JVal.str "Remote error"
            | some v => v)
         | some v => v)
      | some v => v
    let base := [("code", codeV), ("message", JVal.str (jsToString msgRaw))]
    JVal.obj (match getF err "data" with | some d => base ++ [("data", d)] | none => base)

/-- Method used for a relayed remote notification (src/index.js:180). -/
def notifMethodOf (resp : JVal) : String :=
  match getF resp "method" with
  | some (JVal.str s) => s
  | _ => "remote/notification"

/-- Params used for a relayed remote notification (src/index.js:181). -/
def notifParamsOf (resp : JVal) : JVal :=
  match getF resp "params" with
  | some p => if truthy p && isObjLike p then p else JVal.obj []
  | none => JVal.obj []

/-- Test of the error branch guard: the `error` key is present with a value
that is neither `undefined` nor `null` (src/index.js:193). -/
def errGuard (resp : JVal) : Bool :=
  match getF resp "error" with
  | some JVal.null => false
  | some _ => true
  | none => false

/-- Embedding of `coerceToValidResponseForClient(resp, fallbackId)`
(src/index.js:177): the notification frames written as a side effect,
paired with the response object handed to `sendResponse`. -/
def coerce (resp : JVal) (fallbackId : JVal) : List JVal × JVal :=
  if isObjLike resp && hasF resp "method" && !hasF resp "id" then
    ([sendNotification (notifMethodOf resp) (notifParamsOf resp)],
     JVal.obj [("jsonrpc", JVal.str "2.0"), ("id", fallbackId),
               ("result", JVal.obj [("ok", JVal.bool true)])])
  else if !isObjLike resp then
    ([], makeError fallbackId (-32603) "Remote returned non-object" none)
  else if errGuard resp then
    ([], JVal.obj [("jsonrpc", JVal.str "2.0"), ("id", coal (getF resp "id") fallbackId),
                   ("error", normalizeRemoteError ((getF resp "error").getD JVal.null))])
  else if !hasF resp "result" && (hasF resp "message" || hasF resp "status") then
    ([], JVal.obj [("jsonrpc", JVal.str "2.0"), ("id", coal (getF resp "id") fallbackId),
                   ("error", normalizeRemoteError resp)])
  else if !hasF resp "result" then
    ([], makeError fallbackId (-32603) "Remote missing result and error" none)
  else
    ([], JVal.obj [("jsonrpc", JVal.str "2.0"), ("id", coal (getF resp "id") fallbackId),
                   ("result", (getF resp "result").getD JVal.null)])

/-- Embedding of `localInitializeSuccess(id)` (src/index.js:143), without
the flag write, which the message handler threads explicitly. -/
def localInitializeSuccess (id : JVal) : JVal :=
  JVal.obj [("jsonrpc", JVal.str "2.0"), ("id", id),
            ("result", JVal.obj
              [("protocolVersion", JVal.str "2024-11-05"),
               ("serverInfo", JVal.obj [("name", JVal.str "dify-mcp-bridge"),
                                        ("version", JVal.str "1.0.0")]),
               ("capabilities", JVal.obj []),
               ("tools", JVal.arr [])])]

/-- Warning text interpolated into the initialize-failure notification
(src/index.js:253). -/
def warnText (e : JVal) : String :=
  let m := match getF e "message" with
    | some mv => if truthy mv then jsToString mv else "unknown"
    | none => "unknown"
  "dify-bridge: remote initialize failed (" ++ m ++ ")"

/-- Split at double newlines, as the JS string split on a blank line does. -/
def splitNN : List Char → List (List Char)
  | [] => [[]]
  | '\n' :: '\n' :: rest => [] :: splitNN rest
  | c :: rest =>
    match splitNN rest with
    | [] => [[c]]
    | g :: gs => (c :: g) :: gs

/-- Split at single newlines. -/
def splitN : List Char → List (List Char)
  | [] => [[]]
  | '\n' :: rest => [] :: splitN rest
  | c :: rest =>
    match splitN rest with
    | [] => [[c]]
    | g :: gs => (c :: g) :: gs

def dataMarker : List Char := ['d', 'a', 't', 'a', ':']

/-- Substring test, as the JS `includes` method performs. -/
def isInfixL (needle : List Char) : List Char → Bool
  | [] => needle.isPrefixOf []
  | c :: t => needle.isPrefixOf (c :: t) || isInfixL needle t

/-- Per-line step of the data scan (src/index.js:76): a line starting with
the data marker and carrying a non-empty trimmed payload overrides the
accumulator. -/
def scanLine (acc : Option (List Char)) (line : List Char) : Option (List Char) :=
  if dataMarker.isPrefixOf line then
    let payload := trimL (line.drop 5)
    if !payload.isEmpty then some payload else acc
  else acc

/-- Last non-empty data payload over all chunks and lines (src/index.js:72). -/
def lastDataScan (cs : List Char) : Option (List Char) :=
  (((splitNN cs).map trimL).filter (fun c => !c.isEmpty)).foldl
    (fun acc chunk => (splitN chunk).foldl scanLine acc) none

/-- Lazy search for the first closing brace followed by a newline or the end
of input, mirroring the non-greedy body of the fallback pattern. -/
def lazyClose : List Char → Option (List Char × List Char)
  | [] => none
  | '}' :: rest =>
    (match rest with
     | [] => some (['}'], [])
     | '\n' :: _ => some (['}'], rest)
     | _ => (lazyClose rest).map (fun p => ('}' :: p.1, p.2)))
  | c :: rest => (lazyClose rest).map (fun p => (c :: p.1, p.2))

/-- One attempt of the fallback pattern at the current position: the data
marker, optional whitespace, then a braced span ending at the first closing
brace with a newline-or-end lookahead.  Returns the captured group and the
rest of the input after it. -/
def tryMatchAt (cs : List Char) : Option (List Char × List Char) :=
  if dataMarker.isPrefixOf cs then
    match (cs.drop 5).dropWhile jsIsWs with
    | '{' :: r => (lazyClose r).map (fun p => ('{' :: p.1, p.2))
    | _ => none
  else none

/-- Global scan of the fallback pattern, advancing one character on failure
as the regex engine does (fuel-indexed by the input length). -/
def sseScan : Nat → List Char → List (List Char)
  | 0, _ => []
  | _ + 1, [] => []
  | fuel + 1, c :: rest =>
    match tryMatchAt (c :: rest) with
    | some (grp, after) => grp :: sseScan fuel after
    | none => sseScan fuel rest

/-- Embedding of `parseSseLike(text)` (src/index.js:71).  The JS function
returns `null` on failure, which is `JVal.null` here, keeping the callers
truthiness tests faithful.  The second decode attempt of the source parses
the same text again inside the same deterministic parser, so its success
case is unreachable; it is embedded literally nonetheless. -/
def parseSseLike (cs : List Char) : JVal :=
  let lastData :=
    match lastDataScan cs with
    | some p => some p
    | none => if isInfixL dataMarker cs then (sseScan (cs.length + 1) cs).getLast? else none
  match lastData with
  | none => JVal.null
  | some ld =>
    match jsonParse ld with
    | some v => v
    | none =>
      match jsonParse ld with
      | some v => (match jsonParse (jsToString v).toList with | some w => w | none => JVal.null)
      | none => JVal.null

/-- String-level entry of the JSON parser. -/
def jsonParseS (s : String) : Option JVal := jsonParse s.toList

/-- String-level entry of the streaming-event decoder. -/
def parseSseLikeS (s : String) : JVal := parseSseLike s.toList

/-- Content-type test for the streaming event format: the lower-cased
declared type contains the event-stream marker. -/
def sseContentType (ct : String) : Bool :=
  isInfixL "text/event-stream".toList (ct.toList.map Char.toLower)

/-- Embedding of the body-decoding tail of `forwardToRemote`
(src/index.js:108-129), for a success (2xx) response with the given declared
content type and body text.  The network call itself is not modelled; the
message handler below is parameterised by the value this decoding step (or
its error path) produces. -/
def decodeBody (ct text : String) (expectId : JVal) : JVal :=
  if sseContentType ct then
    let parsed := parseSseLikeS text
    if !truthy parsed then
      makeError expectId (-32700) "Parse error (no SSE data)" (some (JVal.str text))
    else parsed
  else
    match jsonParseS text with
    | some v => v
    | none =>
      let parsed := parseSseLikeS text
      if truthy parsed then parsed
      else makeError expectId (-32700) "Parse error (invalid JSON)" (some (JVal.str text))

/-- Test for the JS `null` value, whose property reads throw. -/
def isNullJ : JVal → Bool
  | JVal.null => true
  | _ => false

/-- Tool-list repair guard of the non-initialize path (src/index.js:266):
when the remote value and its result are truthy and the result carries an
array of tools, the result is repaired in place. -/
def repairedRemote (remote : JVal) : JVal :=
  if truthy remote then
    match getF remote "result" with
    | some res =>
      if truthy res then
        match getF res "tools" with
        | some (JVal.arr _) => setF remote "result" (repairToolsInInitializeResult res)
        | _ => remote
      else remote
    | none => remote
  else remote

/-- Observable outcome of handling one inbound message: the frames written
to standard output in order, the request payloads forwarded to the remote,
and the value of the `initialized` flag afterwards. -/
structure HMOut where
  out : List JVal
  fwd : List JVal
  ini : Bool

/-- Embedding of `handleMessage` after line parsing (src/index.js:217-272),
parameterised by the decoded value `remote` that `forwardToRemote` resolves
with.  The result is `none` when the handler throws: the only reachable
throw site is the `msg.id` read on a `null` message, which happens before
any output is written. -/
def handleMessageParsed (ini : Bool) (msg : JVal) (remote : JVal) : Option HMOut :=
  if isNullJ msg then none
  else
    let id := (getF msg "id").getD JVal.null
    match getF msg "method" with
    | some (JVal.str m) =>
      if m = "" then
        some ⟨[sendResponse (makeError id (-32600) "Invalid Request: missing method" none)],
              [], ini⟩
      else if m = "initialize" then
        if truthy remote && truthyO (getF remote "result") then
          let res := (getF remote "result").getD JVal.null
          let remote2 := setF remote "result" (repairToolsInInitializeResult res)
          let step := coerce remote2 id
          some ⟨step.1 ++ [sendResponse step.2], [msg], true⟩
        else if truthy remote && truthyO (getF remote "error") then
          let e := (getF remote "error").getD JVal.null
          some ⟨[sendResponse (localInitializeSuccess id),
                 sendNotification "notifications/message"
                   (JVal.obj [("level", JVal.str "warning"),
                              ("message", JVal.str (warnText e))])],
                [msg], true⟩
        else
          some ⟨[sendResponse (localInitializeSuccess id)], [msg], true⟩
      else
        let remote2 := repairedRemote remote
        let step := coerce remote2 id
        some ⟨step.1 ++ [sendResponse step.2], [msg], ini⟩
    | _ =>
      some ⟨[sendResponse (makeError id (-32600) "Invalid Request: missing method" none)],
            [], ini⟩

/-- Embedding of one iteration of the line loop (src/index.js:217-222 and
276): blank lines and unparseable lines are dropped, and a thrown handler
error is absorbed by the catch of the line listener, which only logs to
standard error. -/
def handleLine (ini : Bool) (line : String) (remote : JVal) : HMOut :=
  if line.toList.all jsIsWs then ⟨[], [], ini⟩
  else
    match jsonParseS line with
    | none => ⟨[], [], ini⟩
    | some m =>
      match handleMessageParsed ini m remote with
      | some r => r
      | none => ⟨[], [], ini⟩

/-- Shape of an outbound notification frame: exactly the version tag
`"2.0"`, a string method and a params field, and no identifier. -/
def isNotifFrame : JVal → Bool
  | JVal.obj [(k1, JVal.str v1), (k2, JVal.str _), (k3, _)] =>
    k1 = "jsonrpc" && v1 = "2.0" && k2 = "method" && k3 = "params"
  | _ => false

/-- Shape of an outbound response frame: exactly the version tag `"2.0"`,
an identifier field, one of result or error, and no other field. -/
def isRespFrame : JVal → Bool
  | JVal.obj [(k1, JVal.str v1), (k2, _), (k3, _)] =>
    k1 = "jsonrpc" && v1 = "2.0" &&
      ((k2 = "id" && (k3 = "result" || k3 = "error")) ||
       ((k2 = "result" || k2 = "error") && k3 = "id"))
  | _ => false

/-- Identifier field of a frame. -/
def idOfFrame (f : JVal) : JVal := (getF f "id").getD JVal.null

/-- Identifier of an inbound message as the handler computes it. -/
def inId (msg : JVal) : JVal := (getF msg "id").getD JVal.null

/-- Amended outbound-frame invariant: a frame is a notification, or a
response whose identifier is the remote payload identifier coalesced with
the inbound identifier, or the inbound identifier itself. -/
def frameOk (msg remote f : JVal) : Prop :=
  isNotifFrame f = true ∨
    (isRespFrame f = true ∧
      (idOfFrame f = coal (getF remote "id") (inId msg) ∨ idOfFrame f = inId msg))

/-- Test of the invalid-request condition: the method field is not a
non-empty string (src/index.js:231). -/
def badMethod (msg : JVal) : Bool :=
  match getF msg "method" with
  | some (JVal.str m) => m == ""
  | _ => true

/-- Invalid-request reply frame for an inbound message. -/
def invalidRequestFrame (msg : JVal) : JVal :=
  JVal.obj [("jsonrpc", JVal.str "2.0"), ("id", inId msg),
            ("error", JVal.obj [("code", JVal.num (-32600)),
                                ("message", JVal.str "Invalid Request: missing method")])]

/-- Modelled from the claim wording for C9: replace every character outside
the class by an underscore, truncate to 64 characters, and substitute the
positional fallback name when the result is empty. -/
def claimSanitize (s : String) (i : Nat) : String :=
  let t := String.mk ((s.data.map (fun c => if isNameChar c then c else '_')).take 64)
  if t = "" then "tool_" ++ natStr (i + 1) else t

/-- Field-name list of an object field list. -/
def keysOf (fs : List (String × JVal)) : List String := fs.map Prod.fst

/-- Test whether a value is an integer in the model (not `NaN`, not another
shape). -/
def isIntJ : JVal → Bool
  | JVal.num _ => true
  | _ => false

/-- Test whether a payload carries an array-valued tools field. -/
def hasToolsArr (r : JVal) : Bool :=
  match getF r "tools" with
  | some (JVal.arr _) => true
  | _ => false

/-! Helper lemmas about the object model. -/

theorem lookupF_setFL_same (fs : List (String × JVal)) (k : String) (v : JVal) :
    lookupF (setFL fs k v) k = some v := by
  induction fs with
  | nil => simp [setFL, lookupF]
  | cons p r ih =>
    by_cases h : p.1 = k
    · simp [setFL, lookupF, h]
    · simp [setFL, lookupF, h, ih]

theorem lookupF_setFL_ne (fs : List (String × JVal)) (k key : String) (v : JVal)
    (h : k ≠ key) : lookupF (setFL fs k v) key = lookupF fs key := by
  induction fs with
  | nil => simp [setFL, lookupF, fun hh => h hh]
  | cons p r ih =>
    by_cases hp : p.1 = k
    · simp [setFL, lookupF, hp, h]
    · simp [setFL, lookupF, hp, ih]

theorem getF_setF_same (fs : List (String × JVal)) (k : String) (v : JVal) :
    getF (setF (JVal.obj fs) k v) k = some v := by
  simp [setF, getF, lookupF_setFL_same]

theorem getF_setF_ne (o : JVal) (k key : String) (v : JVal) (h : k ≠ key) :
    getF (setF o k v) key = getF o key := by
  cases o <;> simp [setF, getF]
  exact lookupF_setFL_ne _ _ _ _ h

theorem setFL_setFL_same (fs : List (String × JVal)) (k : String) (v w : JVal) :
    setFL (setFL fs k v) k w = setFL fs k w := by
  induction fs with
  | nil => simp [setFL]
  | cons p r ih =>
    by_cases hp : p.1 = k
    · simp [setFL, hp]
    · simp [setFL, hp, ih]

theorem setF_setF_same (o : JVal) (k : String) (v w : JVal) :
    setF (setF o k v) k w = setF o k w := by
  cases o <;> simp [setF, setFL_setFL_same]

theorem isObjLike_setF_obj (fs : List (String × JVal)) (k : String) (v : JVal) :
    isObjLike (setF (JVal.obj fs) k v) = true := by
  simp [setF, isObjLike]

theorem truthy_setF_obj (fs : List (String × JVal)) (k : String) (v : JVal) :
    truthy (setF (JVal.obj fs) k v) = true := by
  simp [setF, truthy]

/-! Shape lemmas for the outbound writer. -/

theorem sendResponse_id_result (i r : JVal) :
    sendResponse (JVal.obj [("jsonrpc", JVal.str "2.0"), ("id", i), ("result", r)]) =
      JVal.obj [("jsonrpc", JVal.str "2.0"), ("id", i), ("result", r)] := rfl

theorem sendResponse_id_error (i e : JVal) :
    sendResponse (JVal.obj [("jsonrpc", JVal.str "2.0"), ("id", i), ("error", e)]) =
      JVal.obj [("jsonrpc", JVal.str "2.0"), ("id", i), ("error", e)] := rfl

theorem sendResponse_makeError (i : JVal) (c : Int) (m : String) :
    sendResponse (makeError i c m none) = makeError i c m none := rfl

theorem isNotifFrame_sendNotification (m : String) (p : JVal) :
    isNotifFrame (sendNotification m p) = true := by
  cases p <;> rfl

theorem isRespFrame_id_result (i r : JVal) :
    isRespFrame (JVal.obj [("jsonrpc", JVal.str "2.0"), ("id", i), ("result", r)]) = true := rfl

theorem isRespFrame_id_error (i e : JVal) :
    isRespFrame (JVal.obj [("jsonrpc", JVal.str "2.0"), ("id", i), ("error", e)]) = true := rfl

theorem isRespFrame_makeError (i : JVal) (c : Int) (m : String) :
    isRespFrame (makeError i c m none) = true := rfl

theorem idOfFrame_id_second (i : JVal) (k : String) (v : JVal) :
    idOfFrame (JVal.obj [("jsonrpc", JVal.str "2.0"), ("id", i), (k, v)]) = i := by
  simp [idOfFrame, getF, lookupF]

theorem idOfFrame_makeError (i : JVal) (c : Int) (m : String) :
    idOfFrame (makeError i c m none) = i := rfl

/-- Every reconciler outcome is at most one notification plus one response
frame whose identifier is the coalesced payload identifier or the fallback
identifier. -/
theorem coerce_frames (resp fid : JVal) :
    ((coerce resp fid).1 = [] ∨ ∃ m p, (coerce resp fid).1 = [sendNotification m p]) ∧
    isRespFrame (sendResponse (coerce resp fid).2) = true ∧
    (idOfFrame (sendResponse (coerce resp fid).2) = coal (getF resp "id") fid ∨
     idOfFrame (sendResponse (coerce resp fid).2) = fid) := by
  unfold coerce
  split_ifs with h1 h2 h3 h4 h5
  · exact ⟨Or.inr ⟨_, _, rfl⟩,
      by rw [sendResponse_id_result]; exact isRespFrame_id_result _ _,
      Or.inr (by rw [sendResponse_id_result]; exact idOfFrame_id_second _ _ _)⟩
  · exact ⟨Or.inl rfl,
      by rw [sendResponse_makeError]; exact isRespFrame_makeError _ _ _,
      Or.inr (by rw [sendResponse_makeError]; exact idOfFrame_makeError _ _ _)⟩
  · exact ⟨Or.inl rfl,
      by rw [sendResponse_id_error]; exact isRespFrame_id_error _ _,
      Or.inl (by rw [sendResponse_id_error]; exact idOfFrame_id_second _ _ _)⟩
  · exact ⟨Or.inl rfl,
      by rw [sendResponse_id_error]; exact isRespFrame_id_error _ _,
      Or.inl (by rw [sendResponse_id_error]; exact idOfFrame_id_second _ _ _)⟩
  · exact ⟨Or.inl rfl,
      by rw [sendResponse_makeError]; exact isRespFrame_makeError _ _ _,
      Or.inr (by rw [sendResponse_makeError]; exact idOfFrame_makeError _ _ _)⟩
  · exact ⟨Or.inl rfl,
      by rw [sendResponse_id_result]; exact isRespFrame_id_result _ _,
      Or.inl (by rw [sendResponse_id_result]; exact idOfFrame_id_second _ _ _)⟩

theorem repairedRemote_cases (remote : JVal) :
    repairedRemote remote = remote ∨
      ∃ v, repairedRemote remote = setF remote "result" v := by
  unfold repairedRemote
  split_ifs with h1
  · split
    · split_ifs with h2
      · split
        · exact Or.inr ⟨_, rfl⟩
        · exact Or.inl rfl
      · exact Or.inl rfl
    · exact Or.inl rfl
  · exact Or.inl rfl

theorem getF_repairedRemote (remote : JVal) (key : String) (h : "result" ≠ key) :
    getF (repairedRemote remote) key = getF remote key := by
  rcases repairedRemote_cases remote with he | ⟨v, he⟩
  · rw [he]
  · rw [he, getF_setF_ne _ _ _ _ h]

theorem sendResponse_localInit (i : JVal) :
    sendResponse (localInitializeSuccess i) = localInitializeSuccess i := rfl

theorem isRespFrame_localInit (i : JVal) :
    isRespFrame (localInitializeSuccess i) = true := rfl

theorem idOfFrame_localInit (i : JVal) : idOfFrame (localInitializeSuccess i) = i := rfl

/-- C1 counterexample: for the inbound request with identifier 1, a remote
success payload carrying its own identifier 99 is emitted with identifier
99, which is neither the triggering request identifier nor null, so the
claimed invariant fails as stated. -/
theorem claim1_counterexample :
    (handleMessageParsed false
        (JVal.obj [("id", JVal.num 1), ("method", JVal.str "x")])
        (JVal.obj [("id", JVal.num 99), ("result", JVal.obj [])])).map HMOut.out =
      some [JVal.obj [("jsonrpc", JVal.str "2.0"), ("id", JVal.num 99),
                      ("result", JVal.obj [])]] ∧
    idOfFrame (JVal.obj [("jsonrpc", JVal.str "2.0"), ("id", JVal.num 99),
                         ("result", JVal.obj [])]) ≠ JVal.num 1 ∧
    idOfFrame (JVal.obj [("jsonrpc", JVal.str "2.0"), ("id", JVal.num 99),
                         ("result", JVal.obj [])]) ≠ JVal.null := by
  refine ⟨rfl, ?_, ?_⟩
  · intro hcon
    injection hcon with hv
    exact absurd hv (by decide)
  · intro hcon
    exact JVal.noConfusion hcon

/-- C1 (amended): every frame the handler writes carries the version tag
and is either a notification (method and params, no id) or a response with
an id and exactly one of result or error and no other field; the response
identifier is one of two values, depending on the handling branch: the
remote payload identifier coalesced with the triggering request identifier
(the remote id when present and non-null, else the request id), or the
triggering request identifier itself (null when none was known).  Both
branches occur: a relayed success or error answers at the remote payload
id (the C1 counterexample instantiates this), while the initialize
fallback and the missing-result error answer at the triggering request id
even when the remote payload carries its own id, as the closed conjuncts
below instantiate.  The round trip of the remote success payload with id 7
and result x equal 1 yields exactly the claimed frame. -/
theorem claim1_amended :
    (∀ (ini : Bool) (msg remote : JVal) (r : HMOut) (f : JVal),
        handleMessageParsed ini msg remote = some r → f ∈ r.out → frameOk msg remote f) ∧
    handleMessageParsed false
        (JVal.obj [("jsonrpc", JVal.str "2.0"), ("id", JVal.num 7),
                   ("method", JVal.str "tools/call")])
        (JVal.obj [("id", JVal.num 7), ("result", JVal.obj [("x", JVal.num 1)])]) =
      some ⟨[JVal.obj [("jsonrpc", JVal.str "2.0"), ("id", JVal.num 7),
                       ("result", JVal.obj [("x", JVal.num 1)])]],
            [JVal.obj [("jsonrpc", JVal.str "2.0"), ("id", JVal.num 7),
                       ("method", JVal.str "tools/call")]], false⟩ ∧
    (handleMessageParsed false
        (JVal.obj [("id", JVal.num 1), ("method", JVal.str "initialize")])
        (JVal.obj [("id", JVal.num 5),
                   ("error", JVal.obj [("message", JVal.str "x")])])).map HMOut.out =
      some [sendResponse (localInitializeSuccess (JVal.num 1)),
            sendNotification "notifications/message"
              (JVal.obj [("level", JVal.str "warning"),
                         ("message", JVal.str
                           "dify-bridge: remote initialize failed (x)")])] ∧
    idOfFrame (sendResponse (localInitializeSuccess (JVal.num 1))) = JVal.num 1 ∧
    (handleMessageParsed false
        (JVal.obj [("id", JVal.num 1), ("method", JVal.str "x")])
        (JVal.obj [("id", JVal.num 5), ("foo", JVal.num 1)])).map HMOut.out =
      some [makeError (JVal.num 1) (-32603) "Remote missing result and error" none] ∧
    idOfFrame (makeError (JVal.num 1) (-32603) "Remote missing result and error" none) =
      JVal.num 1 := by
  refine ⟨?_, rfl, rfl, rfl, rfl, rfl⟩
  · intro ini msg remote r f h hf
    unfold handleMessageParsed at h
    by_cases hnull : isNullJ msg = true
    · rw [if_pos hnull] at h; exact absurd h (by simp)
    · rw [if_neg hnull] at h
      split at h
      case _ m =>
        split_ifs at h with hm hi hres herr
        · cases h
          simp only [List.mem_singleton] at hf
          subst hf
          refine Or.inr ⟨?_, Or.inr ?_⟩
          · rw [sendResponse_makeError]; exact isRespFrame_makeError _ _ _
          · rw [sendResponse_makeError, idOfFrame_makeError]; rfl
        · cases h
          obtain ⟨hns, hshape, hid⟩ :=
            coerce_frames
              (setF remote "result"
                (repairToolsInInitializeResult ((getF remote "result").getD JVal.null)))
              ((getF msg "id").getD JVal.null)
          rcases List.mem_append.mp hf with hf1 | hf2
          · rcases hns with h0 | ⟨mm, pp, hsn⟩
            · rw [h0] at hf1; cases hf1
            · rw [hsn] at hf1
              simp only [List.mem_singleton] at hf1
              subst hf1
              exact Or.inl (isNotifFrame_sendNotification mm pp)
          · simp only [List.mem_singleton] at hf2
            subst hf2
            refine Or.inr ⟨hshape, ?_⟩
            rwa [getF_setF_ne _ _ _ _ (by decide)] at hid
        · cases h
          rcases hf with _ | ⟨_, hf⟩
          · refine Or.inr ⟨?_, Or.inr ?_⟩
            · rw [sendResponse_localInit]; exact isRespFrame_localInit _
            · rw [sendResponse_localInit, idOfFrame_localInit]; rfl
          · rcases hf with _ | ⟨_, hf⟩
            · exact Or.inl (isNotifFrame_sendNotification _ _)
            · cases hf
        · cases h
          rcases hf with _ | ⟨_, hf⟩
          · refine Or.inr ⟨?_, Or.inr ?_⟩
            · rw [sendResponse_localInit]; exact isRespFrame_localInit _
            · rw [sendResponse_localInit, idOfFrame_localInit]; rfl
          · cases hf
        · cases h
          obtain ⟨hns, hshape, hid⟩ :=
            coerce_frames (repairedRemote remote) ((getF msg "id").getD JVal.null)
          rcases List.mem_append.mp hf with hf1 | hf2
          · rcases hns with h0 | ⟨mm, pp, hsn⟩
            · rw [h0] at hf1; cases hf1
            · rw [hsn] at hf1
              simp only [List.mem_singleton] at hf1
              subst hf1
              exact Or.inl (isNotifFrame_sendNotification mm pp)
          · simp only [List.mem_singleton] at hf2
            subst hf2
            refine Or.inr ⟨hshape, ?_⟩
            rwa [getF_repairedRemote _ _ (by decide)] at hid
      case _ =>
        cases h
        simp only [List.mem_singleton] at hf
        subst hf
        refine Or.inr ⟨?_, Or.inr ?_⟩
        · rw [sendResponse_makeError]; exact isRespFrame_makeError _ _ _
        · rw [sendResponse_makeError, idOfFrame_makeError]; rfl

/-- C1 witness: the invariant applied to a concrete handled message. -/
theorem claim1_witness :
    frameOk (JVal.obj [("id", JVal.num 2), ("method", JVal.str "ping")])
      (JVal.obj [("id", JVal.num 2), ("result", JVal.bool true)])
      (JVal.obj [("jsonrpc", JVal.str "2.0"), ("id", JVal.num 2),
                 ("result", JVal.bool true)]) :=
  claim1_amended.1 false
    (JVal.obj [("id", JVal.num 2), ("method", JVal.str "ping")])
    (JVal.obj [("id", JVal.num 2), ("result", JVal.bool true)])
    ⟨[JVal.obj [("jsonrpc", JVal.str "2.0"), ("id", JVal.num 2),
                ("result", JVal.bool true)]],
      [JVal.obj [("id", JVal.num 2), ("method", JVal.str "ping")]], false⟩
    (JVal.obj [("jsonrpc", JVal.str "2.0"), ("id", JVal.num 2),
               ("result", JVal.bool true)])
    rfl (List.Mem.head _)

/-- C10: the inbound line consisting of the JSON text null decodes
successfully, the handler raises on the identifier read of the null message
before writing anything, the per-line catch absorbs the raise, and no frame
reaches the protocol output stream while the flag is unchanged. -/
theorem claim10_null_line_silent :
    ∀ (ini : Bool) (remote : JVal),
      jsonParse "null".toList = some JVal.null ∧
      handleMessageParsed ini JVal.null remote = none ∧
      handleLine ini "null" remote = ⟨[], [], ini⟩ := by
  intro ini remote
  exact ⟨rfl, rfl, rfl⟩

/-- C7 counterexample: the line null decodes successfully as JSON and has
no method field, yet the bridge emits no error response at all (and
forwards nothing), so the claimed reply does not happen as stated. -/
theorem claim7_counterexample :
    jsonParse "null".toList = some JVal.null ∧
    badMethod JVal.null = true ∧
    handleLine false "null" (JVal.obj []) = ⟨[], [], false⟩ :=
  ⟨rfl, rfl, rfl⟩

/-- C7 (amended): for every inbound line that decodes successfully as JSON
to a value other than null and lacks a string-valued non-empty method
field, the bridge replies with exactly one error response with code -32600
addressed to the message identifier (null when absent) and forwards nothing
to the remote. -/
theorem claim7_amended :
    ∀ (ini : Bool) (msg remote : JVal),
      isNullJ msg = false → badMethod msg = true →
      handleMessageParsed ini msg remote = some ⟨[invalidRequestFrame msg], [], ini⟩ := by
  intro ini msg remote hnull hbad
  unfold handleMessageParsed
  rw [if_neg (by simp [hnull])]
  unfold badMethod at hbad
  split
  case _ m hm =>
    rw [hm] at hbad
    simp only [beq_iff_eq] at hbad
    rw [if_pos hbad]
    rfl
  case _ hm =>
    rfl

/-- C7 witness: a message with an identifier and no method gets the
invalid-request reply. -/
theorem claim7_witness :
    handleMessageParsed false (JVal.obj [("id", JVal.num 9)]) (JVal.obj []) =
      some ⟨[invalidRequestFrame (JVal.obj [("id", JVal.num 9)])], [], false⟩ :=
  claim7_amended false (JVal.obj [("id", JVal.num 9)]) (JVal.obj []) rfl rfl

theorem hasF_obj_of_hasF (resp : JVal) (key : String) (h : hasF resp key = true) :
    isObjLike resp = true := by
  cases resp <;> simp [hasF, getF, isObjLike] at h ⊢

theorem hasF_repairedRemote (remote : JVal) (key : String) (h : "result" ≠ key) :
    hasF (repairedRemote remote) key = hasF remote key := by
  unfold hasF
  rw [getF_repairedRemote _ _ h]

theorem notifMethodOf_repairedRemote (remote : JVal) :
    notifMethodOf (repairedRemote remote) = notifMethodOf remote := by
  unfold notifMethodOf
  rw [getF_repairedRemote _ _ (by decide)]

theorem notifParamsOf_repairedRemote (remote : JVal) :
    notifParamsOf (repairedRemote remote) = notifParamsOf remote := by
  unfold notifParamsOf
  rw [getF_repairedRemote _ _ (by decide)]

/-- A payload with a method field and no identifier field is reconciled as
one notification plus the benign success response. -/
theorem coerce_notification (resp fid : JVal)
    (hm : hasF resp "method" = true) (hid : hasF resp "id" = false) :
    coerce resp fid =
      ([sendNotification (notifMethodOf resp) (notifParamsOf resp)],
       JVal.obj [("jsonrpc", JVal.str "2.0"), ("id", fid),
                 ("result", JVal.obj [("ok", JVal.bool true)])]) := by
  have hobj := hasF_obj_of_hasF resp "method" hm
  unfold coerce
  rw [if_pos (by simp [hobj, hm, hid])]

/-- C2 counterexample: first, an initialize request whose remote payload is
a notification (method, no id) yields one output line, not two; second, a
remote notification whose method is the number 5 is relayed with the
substituted method name, not the payload method. -/
theorem claim2_counterexample :
    (handleMessageParsed false
        (JVal.obj [("id", JVal.num 1), ("method", JVal.str "initialize")])
        (JVal.obj [("method", JVal.str "log"),
                   ("params", JVal.obj [("level", JVal.str "info")])])).map HMOut.out =
      some [sendResponse (localInitializeSuccess (JVal.num 1))] ∧
    (handleMessageParsed false
        (JVal.obj [("id", JVal.num 1), ("method", JVal.str "poke")])
        (JVal.obj [("method", JVal.num 5)])).map HMOut.out =
      some [JVal.obj [("jsonrpc", JVal.str "2.0"),
                      ("method", JVal.str "remote/notification"), ("params", JVal.obj [])],
            JVal.obj [("jsonrpc", JVal.str "2.0"), ("id", JVal.num 1),
                      ("result", JVal.obj [("ok", JVal.bool true)])]] ∧
    JVal.str "remote/notification" ≠ JVal.num 5 :=
  ⟨rfl, rfl, fun h => JVal.noConfusion h⟩

/-- C2 (amended): for every decoded remote payload with a method field and
no identifier field, handled on the non-initialize path, the bridge writes
exactly two lines in order: a notification carrying the payload method when
it is a string (else the substitute name) and the payload params when they
are a non-null object (else the empty object), then the benign success
response addressed to the original request identifier. -/
theorem claim2_amended :
    ∀ (ini : Bool) (msg remote : JVal) (m : String),
      isNullJ msg = false →
      getF msg "method" = some (JVal.str m) → m ≠ "" → m ≠ "initialize" →
      hasF remote "method" = true → hasF remote "id" = false →
      handleMessageParsed ini msg remote =
        some ⟨[sendNotification (notifMethodOf remote) (notifParamsOf remote),
               JVal.obj [("jsonrpc", JVal.str "2.0"), ("id", inId msg),
                         ("result", JVal.obj [("ok", JVal.bool true)])]],
              [msg], ini⟩ := by
  intro ini msg remote m hnull hm hme hminit hrm hrid
  unfold handleMessageParsed
  rw [if_neg (by simp [hnull]), hm]
  simp only []
  rw [if_neg hme, if_neg hminit]
  have hm2 : hasF (repairedRemote remote) "method" = true := by
    rw [hasF_repairedRemote _ _ (by decide)]; exact hrm
  have hid2 : hasF (repairedRemote remote) "id" = false := by
    rw [hasF_repairedRemote _ _ (by decide)]; exact hrid
  rw [coerce_notification (repairedRemote remote) _ hm2 hid2,
    notifMethodOf_repairedRemote, notifParamsOf_repairedRemote]
  rfl

/-- C2 witness: the log/info notification example produces exactly the
notification line followed by the benign success line. -/
theorem claim2_witness :
    handleMessageParsed false
        (JVal.obj [("id", JVal.num 3), ("method", JVal.str "tools/call")])
        (JVal.obj [("method", JVal.str "log"),
                   ("params", JVal.obj [("level", JVal.str "info")])]) =
      some ⟨[JVal.obj [("jsonrpc", JVal.str "2.0"), ("method", JVal.str "log"),
                       ("params", JVal.obj [("level", JVal.str "info")])],
             JVal.obj [("jsonrpc", JVal.str "2.0"), ("id", JVal.num 3),
                       ("result", JVal.obj [("ok", JVal.bool true)])]],
            [JVal.obj [("id", JVal.num 3), ("method", JVal.str "tools/call")]], false⟩ :=
  claim2_amended false
    (JVal.obj [("id", JVal.num 3), ("method", JVal.str "tools/call")])
    (JVal.obj [("method", JVal.str "log"),
               ("params", JVal.obj [("level", JVal.str "info")])])
    "tools/call" rfl rfl (by decide) (by decide) rfl rfl

/-- C4: for every initialize request whose remote call produced an error
(an error field that is truthy, with no truthy result) carrying a non-empty
string message, the bridge emits the locally synthesized initialize success
(fixed protocol version, fixed server identity, empty capabilities, empty
tool list) addressed to the original identifier, sets the initialized flag,
and emits exactly one further frame: the warning notification whose text
embeds the remote error message. -/
theorem claim4_initialize_fallback :
    ∀ (ini : Bool) (msg remote e : JVal) (s : String),
      isNullJ msg = false →
      getF msg "method" = some (JVal.str "initialize") →
      truthyO (getF remote "result") = false →
      getF remote "error" = some e → truthy e = true →
      getF e "message" = some (JVal.str s) → s ≠ "" →
      handleMessageParsed ini msg remote =
        some ⟨[sendResponse (localInitializeSuccess (inId msg)),
               sendNotification "notifications/message"
                 (JVal.obj [("level", JVal.str "warning"),
                            ("message", JVal.str
                              ("dify-bridge: remote initialize failed (" ++ s ++ ")"))])],
              [msg], true⟩ := by
  intro ini msg remote e s hnull hm hres herr htre hmsg hs
  have htr : truthy remote = true := by
    cases remote <;> simp [getF, truthy] at herr ⊢
  unfold handleMessageParsed
  rw [if_neg (by simp [hnull]), hm]
  simp only []
  rw [if_neg (by decide), if_pos trivial,
    if_neg (by simp [htr, hres]),
    if_pos (by simp [htr, herr, truthyO, htre])]
  rw [herr]
  have hwarn : warnText e = "dify-bridge: remote initialize failed (" ++ s ++ ")" := by
    unfold warnText
    rw [hmsg]
    have hne : s.isEmpty = false := by
      rw [Bool.eq_false_iff]
      intro hh
      exact hs ((String.isEmpty_iff s).mp hh)
    simp [truthy, hne, jsToString]
  simp only [Option.getD_some, hwarn]
  rfl

/-- C4 witness: a failing remote initialize with message boom yields the
local success and the single warning notification. -/
theorem claim4_witness :
    handleMessageParsed false
        (JVal.obj [("id", JVal.num 1), ("method", JVal.str "initialize")])
        (JVal.obj [("error", JVal.obj [("message", JVal.str "boom")])]) =
      some ⟨[sendResponse (localInitializeSuccess (JVal.num 1)),
             sendNotification "notifications/message"
               (JVal.obj [("level", JVal.str "warning"),
                          ("message", JVal.str
                            "dify-bridge: remote initialize failed (boom)")])],
            [JVal.obj [("id", JVal.num 1), ("method", JVal.str "initialize")]], true⟩ :=
  claim4_initialize_fallback false
    (JVal.obj [("id", JVal.num 1), ("method", JVal.str "initialize")])
    (JVal.obj [("error", JVal.obj [("message", JVal.str "boom")])])
    (JVal.obj [("message", JVal.str "boom")]) "boom"
    rfl rfl rfl rfl rfl rfl (by decide)

/-- C3 counterexample: a remote error payload whose error carries an
object-valued code field is surfaced with code NaN (serialized as null),
which is not an integer, refuting the claimed shape for every surfaced
error. -/
theorem claim3_counterexample :
    (handleMessageParsed false
        (JVal.obj [("id", JVal.num 7), ("method", JVal.str "x")])
        (JVal.obj [("id", JVal.num 7),
                   ("error", JVal.obj [("code", JVal.obj [])])])).map HMOut.out =
      some [JVal.obj [("jsonrpc", JVal.str "2.0"), ("id", JVal.num 7),
              ("error", JVal.obj [("code", JVal.nan),
                                  ("message", JVal.str "Remote error")])]] ∧
    isIntJ JVal.nan = false :=
  ⟨rfl, rfl⟩

/-- C3 (amended): the normalized error takes its code from the JS numeric
coercion of the code field, else the status field, else the default -32000;
the coerced code is the integer itself whenever the field holds an integer,
and is NaN (hence not an integer) for non-numeric values; the message is
taken from message, else error, else reason, defaulting to the generic
string, and is always a string; a data field is carried through unchanged
and omitted when absent; the concrete example with error message boom
yields the claimed frame. -/
theorem claim3_amended :
    (∀ (err : JVal) (c : Int), getF err "code" = some (JVal.num c) →
        getF (normalizeRemoteError err) "code" = some (JVal.num c)) ∧
    (∀ (err : JVal) (c : Int), isObjLike err = true → getF err "code" = none →
        getF err "status" = some (JVal.num c) →
        getF (normalizeRemoteError err) "code" = some (JVal.num c)) ∧
    (∀ (err : JVal), isObjLike err = true → getF err "code" = none →
        getF err "status" = none →
        getF (normalizeRemoteError err) "code" = some (JVal.num (-32000))) ∧
    (∀ (err : JVal) (s : String), getF err "message" = some (JVal.str s) →
        getF (normalizeRemoteError err) "message" = some (JVal.str s)) ∧
    (∀ (err : JVal) (s : String), isObjLike err = true →
        getF err "message" = none → getF err "error" = some (JVal.str s) →
        getF (normalizeRemoteError err) "message" = some (JVal.str s)) ∧
    (∀ (err : JVal) (s : String), isObjLike err = true →
        getF err "message" = none → getF err "error" = none →
        getF err "reason" = some (JVal.str s) →
        getF (normalizeRemoteError err) "message" = some (JVal.str s)) ∧
    (∀ (err : JVal), isObjLike err = true →
        getF err "message" = none → getF err "error" = none →
        getF err "reason" = none →
        getF (normalizeRemoteError err) "message" = some (JVal.str "Remote error")) ∧
    (∀ (err d : JVal), isObjLike err = true → getF err "data" = some d →
        getF (normalizeRemoteError err) "data" = some d) ∧
    (∀ (err : JVal), isObjLike err = true → getF err "data" = none →
        getF (normalizeRemoteError err) "data" = none) ∧
    (∀ (err : JVal), ∃ s, getF (normalizeRemoteError err) "message" = some (JVal.str s)) ∧
    (∀ (err : JVal),
        (∃ n, getF (normalizeRemoteError err) "code" = some (JVal.num n)) ∨
        getF (normalizeRemoteError err) "code" = some JVal.nan) ∧
    (handleMessageParsed false
        (JVal.obj [("id", JVal.num 7), ("method", JVal.str "x")])
        (JVal.obj [("id", JVal.num 7),
                   ("error", JVal.obj [("message", JVal.str "boom")])])).map HMOut.out =
      some [JVal.obj [("jsonrpc", JVal.str "2.0"), ("id", JVal.num 7),
              ("error", JVal.obj [("code", JVal.num (-32000)),
                                  ("message", JVal.str "boom")])]] := by
  refine ⟨?_, ?_, ?_, ?_, ?_, ?_, ?_, ?_, ?_, ?_, ?_, rfl⟩
  · intro err c h
    have hobj : isObjLike err = true := hasF_obj_of_hasF err "code" (by simp [hasF, h])
    unfold normalizeRemoteError
    rw [if_neg (by simp [hobj])]
    simp only [h]
    cases hd : getF err "data" <;> simp [hd, jsNumber, getF, lookupF]
  · intro err c hobj h1 h2
    unfold normalizeRemoteError
    rw [if_neg (by simp [hobj])]
    simp only [h1, h2]
    cases hd : getF err "data" <;> simp [hd, jsNumber, getF, lookupF]
  · intro err hobj h1 h2
    unfold normalizeRemoteError
    rw [if_neg (by simp [hobj])]
    simp only [h1, h2]
    cases hd : getF err "data" <;> simp [hd, jsNumber, getF, lookupF]
  · intro err s h
    have hobj : isObjLike err = true := hasF_obj_of_hasF err "message" (by simp [hasF, h])
    unfold normalizeRemoteError
    rw [if_neg (by simp [hobj])]
    simp only [h]
    cases hd : getF err "data" <;> simp [hd, jsToString, getF, lookupF]
  · intro err s hobj h1 h2
    unfold normalizeRemoteError
    rw [if_neg (by simp [hobj])]
    simp only [h1, h2]
    cases hd : getF err "data" <;> simp [hd, jsToString, getF, lookupF]
  · intro err s hobj h1 h2 h3
    unfold normalizeRemoteError
    rw [if_neg (by simp [hobj])]
    simp only [h1, h2, h3]
    cases hd : getF err "data" <;> simp [hd, jsToString, getF, lookupF]
  · intro err hobj h1 h2 h3
    unfold normalizeRemoteError
    rw [if_neg (by simp [hobj])]
    simp only [h1, h2, h3]
    cases hd : getF err "data" <;> simp [hd, jsToString, getF, lookupF]
  · intro err d hobj h
    unfold normalizeRemoteError
    rw [if_neg (by simp [hobj])]
    simp only [h]
    simp [getF, lookupF]
  · intro err hobj h
    unfold normalizeRemoteError
    rw [if_neg (by simp [hobj])]
    simp only [h]
    simp [getF, lookupF]
  · intro err
    unfold normalizeRemoteError
    cases err with
    | obj fs =>
      rw [if_neg (fun h => nomatch h)]
      cases hd : getF (JVal.obj fs) "data" <;> simp [hd, getF, lookupF]
    | arr l =>
      rw [if_neg (fun h => nomatch h)]
      exact ⟨"Remote error", rfl⟩
    | null => exact ⟨_, rfl⟩
    | nan => exact ⟨_, rfl⟩
    | bool b => exact ⟨_, rfl⟩
    | num n => exact ⟨_, rfl⟩
    | str s => exact ⟨_, rfl⟩
  · intro err
    unfold normalizeRemoteError
    cases err with
    | obj fs =>
      rw [if_neg (fun h => nomatch h)]
      simp only [getF]
      cases hc : lookupF fs "code" with
      | some c =>
        simp only [hc]
        cases hn : jsNumber c <;> cases hd : lookupF fs "data" <;>
            simp [hn, hd, getF, lookupF]
      | none =>
        simp only [hc]
        cases hs : lookupF fs "status" with
        | some s =>
          simp only [hs]
          cases hn : jsNumber s <;> cases hd : lookupF fs "data" <;>
              simp [hn, hd, getF, lookupF]
        | none =>
          simp only [hs]
          cases hd : lookupF fs "data" <;> simp [hd, getF, lookupF, jsNumber]
    | arr l => exact Or.inl ⟨-32000, rfl⟩
    | null => exact Or.inl ⟨-32000, rfl⟩
    | nan => exact Or.inl ⟨-32000, rfl⟩
    | bool b => exact Or.inl ⟨-32000, rfl⟩
    | num n => exact Or.inl ⟨-32000, rfl⟩
    | str s => exact Or.inl ⟨-32000, rfl⟩

/-- C3 witness: concrete instances of the code and message rules. -/
theorem claim3_witness :
    getF (normalizeRemoteError (JVal.obj [("code", JVal.num 5)])) "code" =
      some (JVal.num 5) ∧
    getF (normalizeRemoteError (JVal.obj [("status", JVal.num 404)])) "code" =
      some (JVal.num 404) ∧
    getF (normalizeRemoteError (JVal.obj [("reason", JVal.str "down")])) "message" =
      some (JVal.str "down") :=
  ⟨claim3_amended.1 (JVal.obj [("code", JVal.num 5)]) 5 rfl,
   claim3_amended.2.1 (JVal.obj [("status", JVal.num 404)]) 404 rfl rfl rfl,
   claim3_amended.2.2.2.2.2.1 (JVal.obj [("reason", JVal.str "down")]) "down"
     rfl rfl rfl rfl⟩

/-- C5 (code bug): for the doubly-encoded streaming body the extracted data
payload decodes to a JSON string, and the decoder returns that string
instead of decoding it a second time: the first parse returns from the
function on success, and the second, double-parsing attempt is only reached
when the first parse failed, in which case its inner parse of the same text
fails again.  The inner object that the second decode should produce does
exist, as the second conjunct shows, and the full body decoder therefore
hands the enclosing pipeline a bare string. -/
theorem claim5_double_decode_bug :
    parseSseLike "data: \"\x7b\\\"a\\\":1\x7d\"".toList = JVal.str "\x7b\"a\":1\x7d" ∧
    jsonParse "\x7b\"a\":1\x7d".toList = some (JVal.obj [("a", JVal.num 1)]) ∧
    decodeBody "text/event-stream" "data: \"\x7b\\\"a\\\":1\x7d\"" (JVal.num 1) =
      JVal.str "\x7b\"a\":1\x7d" :=
  ⟨rfl, rfl, rfl⟩

/-- C6 counterexample: a response declared as the streaming event format
whose body is plain JSON is rejected with the parse error for missing
stream data even though direct JSON decoding succeeds, so the fallback is
not symmetric and the parse error is not reserved for the case where both
paths fail. -/
theorem claim6_counterexample :
    decodeBody "text/event-stream" "\x7b\"a\":1\x7d" (JVal.num 1) =
      makeError (JVal.num 1) (-32700) "Parse error (no SSE data)"
        (some (JVal.str "\x7b\"a\":1\x7d")) ∧
    jsonParse "\x7b\"a\":1\x7d".toList = some (JVal.obj [("a", JVal.num 1)]) :=
  ⟨rfl, rfl⟩

/-- C6 (amended): when the declared content type is plain JSON (or absent)
and direct JSON decoding fails, the decoder falls back to the streaming
event path, and reports the parse error with the raw text as data only
when that fallback also yields nothing usable; but when the declared type
is the streaming event format and no data payload can be extracted, the
parse error (with the raw text as data) is produced immediately, without
attempting direct JSON decoding. -/
theorem claim6_amended :
    ∀ (ct text : String) (expectId : JVal),
      (sseContentType ct = true →
        truthy (parseSseLikeS text) = false →
        decodeBody ct text expectId =
          makeError expectId (-32700) "Parse error (no SSE data)"
            (some (JVal.str text))) ∧
      (sseContentType ct = false →
        jsonParseS text = none →
        truthy (parseSseLikeS text) = true →
        decodeBody ct text expectId = parseSseLikeS text) ∧
      (sseContentType ct = false →
        jsonParseS text = none →
        truthy (parseSseLikeS text) = false →
        decodeBody ct text expectId =
          makeError expectId (-32700) "Parse error (invalid JSON)"
            (some (JVal.str text))) := by
  intro ct text expectId
  refine ⟨?_, ?_, ?_⟩
  · intro hct hsse
    unfold decodeBody
    rw [if_pos hct, if_pos (by simp [hsse])]
  · intro hct hjson hsse
    unfold decodeBody
    rw [if_neg (by simp [hct]), hjson]
    simp only [hsse, if_true]
  · intro hct hjson hsse
    unfold decodeBody
    rw [if_neg (by simp [hct]), hjson]
    simp only [hsse]
    rfl

/-- C6 witness: the JSON-to-stream fallback at work on a streaming body
with a JSON content type, and the parse error when both fail. -/
theorem claim6_witness :
    decodeBody "application/json" "data: \x7b\"ok\":true\x7d\n\n" (JVal.num 4) =
      JVal.obj [("ok", JVal.bool true)] ∧
    decodeBody "application/json" "garbage" (JVal.num 4) =
      makeError (JVal.num 4) (-32700) "Parse error (invalid JSON)"
        (some (JVal.str "garbage")) :=
  ⟨(claim6_amended "application/json" "data: \x7b\"ok\":true\x7d\n\n" (JVal.num 4)).2.1
      rfl rfl rfl,
   (claim6_amended "application/json" "garbage" (JVal.num 4)).2.2 rfl rfl rfl⟩

/-! Lemmas about decimal numerals, fallback names and the sanitizer. -/

theorem digitChar_name (d : Nat) (h : d < 10) : isNameChar (digitChar d) = true := by
  interval_cases d <;> decide

theorem digitChar_isDigit (d : Nat) (h : d < 10) : (digitChar d).isDigit = true := by
  interval_cases d <;> decide

theorem natDigitsAux_name (fuel n : Nat) :
    (natDigitsAux fuel n).all isNameChar = true := by
  induction fuel generalizing n with
  | zero => rfl
  | succ fuel ih =>
    unfold natDigitsAux
    split_ifs with h
    · simp [digitChar_name n h]
    · simp [List.all_append, ih, digitChar_name (n % 10) (Nat.mod_lt _ (by decide))]

theorem natDigitsAux_isDigit (fuel n : Nat) :
    (natDigitsAux fuel n).all Char.isDigit = true := by
  induction fuel generalizing n with
  | zero => rfl
  | succ fuel ih =>
    unfold natDigitsAux
    split_ifs with h
    · simp [digitChar_isDigit n h]
    · simp [List.all_append, ih, digitChar_isDigit (n % 10) (Nat.mod_lt _ (by decide))]

theorem natDigitsAux_len (fuel : Nat) :
    ∀ (n k : Nat), 1 ≤ k → n < 10 ^ k → (natDigitsAux fuel n).length ≤ k := by
  induction fuel with
  | zero => intro n k h1 _; simp [natDigitsAux]
  | succ fuel ih =>
    intro n k h1 h2
    unfold natDigitsAux
    split_ifs with h
    · simpa using h1
    · cases k with
      | zero => omega
      | succ k2 =>
        have hk2 : 1 ≤ k2 := by
          rcases Nat.lt_or_ge k2 1 with hlt | hge
          · interval_cases k2
            · simp [pow_one] at h2; omega
          · exact hge
        have hdiv : n / 10 < 10 ^ k2 := by
          rw [Nat.div_lt_iff_lt_mul (by decide : 0 < 10)]
          calc n < 10 ^ (k2 + 1) := h2
            _ = 10 ^ k2 * 10 := by rw [pow_succ]
        have := ih (n / 10) k2 hk2 hdiv
        simp [List.length_append]
        omega

theorem natStr_all_name (n : Nat) : (natStr n).data.all isNameChar = true :=
  natDigitsAux_name (n + 1) n

theorem natStr_len (n k : Nat) (h1 : 1 ≤ k) (h : n < 10 ^ k) :
    (natStr n).length ≤ k :=
  natDigitsAux_len (n + 1) n k h1 h

theorem natStr_ne_name (n : Nat) : natStr n ≠ "name" := by
  intro h
  have hd : natDigits n = ['n', 'a', 'm', 'e'] := congrArg String.data h
  have := natDigitsAux_isDigit (n + 1) n
  rw [show natDigitsAux (n + 1) n = natDigits n from rfl, hd] at this
  exact absurd this (by decide)

theorem fbName_all_name (i : Nat) : (fbName i).data.all isNameChar = true := by
  unfold fbName
  rw [String.data_append]
  simp [List.all_append, natStr_all_name, isNameChar]

theorem fbName_ne (i : Nat) : fbName i ≠ "" := by
  intro h
  unfold fbName at h
  have hd := congrArg String.data h
  rw [String.data_append] at hd
  simp at hd

theorem fbName_len (i : Nat) (h : i + 1 < 10 ^ 10) : (fbName i).length ≤ 64 := by
  unfold fbName
  rw [String.length_append]
  have := natStr_len (i + 1) 10 (by decide) h
  have h5 : ("tool_" : String).length = 5 := rfl
  omega

theorem cleanChar_name (c : Char) : isNameChar (cleanChar c) = true := by
  unfold cleanChar
  split_ifs with h
  · exact h
  · decide

theorem map_cleanChar_id (l : List Char) (h : l.all isNameChar = true) :
    l.map cleanChar = l := by
  induction l with
  | nil => rfl
  | cons c r ih =>
    simp only [List.all_cons, Bool.and_eq_true] at h
    simp [cleanChar, h.1, ih h.2]

/-- The sanitizer output is always a valid sanitized name, provided the
fallback base is one. -/
theorem sanitize_good (v : JVal) (fb : String)
    (hfb1 : fb.data.all isNameChar = true) (hfb2 : fb.length ≤ 64) (hfb3 : fb ≠ "") :
    (sanitizeToolName v fb).data.all isNameChar = true ∧
      (sanitizeToolName v fb).length ≤ 64 ∧ sanitizeToolName v fb ≠ "" := by
  simp only [sanitizeToolName]
  split_ifs with hc
  · exact ⟨hfb1, hfb2, hfb3⟩
  · refine ⟨?_, ?_, hc⟩
    · rw [List.all_eq_true]
      intro c hcmem
      have hsub := List.take_subset 64 _ hcmem
      obtain ⟨c0, _, rfl⟩ := List.mem_map.mp hsub
      exact cleanChar_name c0
    · show (List.take 64 _).length ≤ 64
      simp [List.length_take]

/-- The sanitizer leaves a valid sanitized name unchanged. -/
theorem sanitize_fixed (s fb : String)
    (h1 : s.data.all isNameChar = true) (h2 : s.length ≤ 64) (h3 : s ≠ "") :
    sanitizeToolName (JVal.str s) fb = s := by
  simp only [sanitizeToolName]
  have hmap : s.toList.map cleanChar = s.toList := map_cleanChar_id _ h1
  have htake : (s.toList.map cleanChar).take 64 = s.toList := by
    rw [hmap]
    exact List.take_of_length_le h2
  simp only [jsToString, htake]
  rw [show ({ data := s.toList } : String) = s from rfl, if_neg h3]

theorem fixTool_not_objlike (i : Nat) (v : JVal) (h : isObjLike v = false) :
    fixTool i v = v := by
  cases v <;> simp [isObjLike] at h ⊢ <;> rfl

theorem fixTool_obj (i : Nat) (fs : List (String × JVal)) :
    fixTool i (JVal.obj fs) =
      setF (JVal.obj fs) "name"
        (JVal.str (sanitizeToolName (nameArg i (JVal.obj fs)) (fbName i))) := rfl

theorem nameArg_set (i : Nat) (fs : List (String × JVal)) (n1 : String) :
    nameArg i (JVal.obj (setFL fs "name" (JVal.str n1))) = JVal.str n1 := by
  unfold nameArg
  rw [show getF (JVal.obj (setFL fs "name" (JVal.str n1))) "name" =
        lookupF (setFL fs "name" (JVal.str n1)) "name" from rfl,
    lookupF_setFL_same]

/-- A descriptor whose name is already a valid sanitized name is a fixed
point of the per-descriptor repair. -/
theorem fix_settled (i : Nat) (fs : List (String × JVal)) (n1 : String)
    (hg1 : n1.data.all isNameChar = true) (hg2 : n1.length ≤ 64) (hg3 : n1 ≠ "") :
    fixTool i (setF (JVal.obj fs) "name" (JVal.str n1)) =
      setF (JVal.obj fs) "name" (JVal.str n1) := by
  show fixTool i (JVal.obj (setFL fs "name" (JVal.str n1))) =
    JVal.obj (setFL fs "name" (JVal.str n1))
  rw [fixTool_obj, nameArg_set, sanitize_fixed n1 (fbName i) hg1 hg2 hg3]
  show JVal.obj (setFL (setFL fs "name" (JVal.str n1)) "name" (JVal.str n1)) = _
  rw [setFL_setFL_same]

theorem fix_idem (i : Nat) (hi : i + 1 < 10 ^ 10) (t : JVal) :
    fixTool i (fixTool i t) = fixTool i t := by
  have hfb1 := fbName_all_name i
  have hfb2 := fbName_len i hi
  have hfb3 := fbName_ne i
  cases t with
  | obj fs =>
    rw [fixTool_obj]
    obtain ⟨hg1, hg2, hg3⟩ :=
      sanitize_good (nameArg i (JVal.obj fs)) (fbName i) hfb1 hfb2 hfb3
    exact fix_settled i fs _ hg1 hg2 hg3
  | arr xs =>
    show fixTool i (setF (JVal.obj (spreadArr xs)) "name"
      (JVal.str (sanitizeToolName (nameArg i (JVal.arr xs)) (fbName i)))) = _
    obtain ⟨hg1, hg2, hg3⟩ :=
      sanitize_good (nameArg i (JVal.arr xs)) (fbName i) hfb1 hfb2 hfb3
    exact fix_settled i (spreadArr xs) _ hg1 hg2 hg3
  | null => rfl
  | nan => rfl
  | bool b => rfl
  | num n => rfl
  | str s => rfl

theorem mapIdx_fix_idem (ts : List JVal) :
    ∀ (i0 : Nat), i0 + ts.length ≤ 2 ^ 32 →
      mapWithIndex fixTool i0 (mapWithIndex fixTool i0 ts) =
        mapWithIndex fixTool i0 ts := by
  induction ts with
  | nil => intro i0 _; rfl
  | cons x r ih =>
    intro i0 hb
    simp only [mapWithIndex]
    have hx : i0 + 1 < 10 ^ 10 := by
      have h32 : (2 : Nat) ^ 32 < 10 ^ 10 := by norm_num
      simp only [List.length_cons] at hb
      omega
    rw [fix_idem i0 hx x, ih (i0 + 1) (by simp only [List.length_cons] at hb; omega)]

theorem repair_no_tools (r : JVal) (h : hasToolsArr r = false) :
    repairToolsInInitializeResult r = r := by
  unfold repairToolsInInitializeResult
  split_ifs with htr
  · rfl
  · unfold hasToolsArr at h
    split
    case _ ts heq => rw [heq] at h; simp at h
    case _ => rfl

theorem repair_tools (fs : List (String × JVal)) (ts : List JVal)
    (ht : lookupF fs "tools" = some (JVal.arr ts)) :
    repairToolsInInitializeResult (JVal.obj fs) =
      JVal.obj (setFL fs "tools" (JVal.arr (mapWithIndex fixTool 0 ts))) := by
  unfold repairToolsInInitializeResult
  rw [if_neg (by simp [truthy])]
  simp only [getF, ht]
  rfl

/-- C8: the Tool-Name Sanitizer is idempotent: applying the payload-level
repair twice yields the same result as applying it once.  The hypothesis
bounds the tool list by the maximum length of a JS array (2 to the 32nd),
under which every positional fallback name fits the 64-character limit, so
sanitized names are stable under re-sanitization. -/
theorem claim8_sanitizer_idempotent :
    ∀ (r : JVal),
      (∀ l, getF r "tools" = some (JVal.arr l) → l.length ≤ 2 ^ 32) →
      repairToolsInInitializeResult (repairToolsInInitializeResult r) =
        repairToolsInInitializeResult r := by
  intro r hb
  by_cases hta : hasToolsArr r = true
  · cases r with
    | null => exact nomatch hta
    | nan => exact nomatch hta
    | bool b => exact nomatch hta
    | num n => exact nomatch hta
    | str s => exact nomatch hta
    | arr l => exact nomatch hta
    | obj fs =>
      unfold hasToolsArr at hta
      simp only [getF] at hta
      cases ht : lookupF fs "tools" with
      | none => rw [ht] at hta; simp at hta
      | some v =>
        rw [ht] at hta
        cases v with
        | arr ts =>
          have hlen : ts.length ≤ 2 ^ 32 := hb ts (by simp [getF, ht])
          rw [repair_tools fs ts ht,
            repair_tools (setFL fs "tools" (JVal.arr (mapWithIndex fixTool 0 ts)))
              (mapWithIndex fixTool 0 ts) (lookupF_setFL_same fs "tools" _),
            setFL_setFL_same, mapIdx_fix_idem ts 0 (by omega)]
        | null => exact nomatch hta
        | nan => exact nomatch hta
        | bool b => exact nomatch hta
        | num n => exact nomatch hta
        | str s => exact nomatch hta
        | obj fs2 => exact nomatch hta
  · have h8 : hasToolsArr r = false := by
      cases hh : hasToolsArr r
      · rfl
      · exact absurd hh hta
    rw [repair_no_tools r h8, repair_no_tools r h8]

/-- C8 witness: repairing an already repaired payload with a dirty name, an
empty name and a non-object descriptor changes nothing further. -/
theorem claim8_witness :
    repairToolsInInitializeResult (repairToolsInInitializeResult
      (JVal.obj [("tools", JVal.arr
        [JVal.obj [("name", JVal.str "My Tool!!")],
         JVal.obj [("name", JVal.str "")],
         JVal.num 7])])) =
      repairToolsInInitializeResult
        (JVal.obj [("tools", JVal.arr
          [JVal.obj [("name", JVal.str "My Tool!!")],
           JVal.obj [("name", JVal.str "")],
           JVal.num 7])]) :=
  claim8_sanitizer_idempotent
    (JVal.obj [("tools", JVal.arr
      [JVal.obj [("name", JVal.str "My Tool!!")],
       JVal.obj [("name", JVal.str "")],
       JVal.num 7])])
    (by intro l hl; cases hl; decide)

theorem keysOf_setFL (fs : List (String × JVal)) (k : String) (v : JVal) :
    keysOf (setFL fs k v) =
      (if k ∈ keysOf fs then keysOf fs else keysOf fs ++ [k]) := by
  induction fs with
  | nil => simp [setFL, keysOf]
  | cons p r ih =>
    by_cases hp : p.1 = k
    · simp [setFL, keysOf, hp]
    · simp only [setFL, if_neg hp, keysOf, List.map_cons] at ih ⊢
      rw [ih]
      have hkp : k ≠ p.1 := fun h => hp h.symm
      by_cases hk : k ∈ r.map Prod.fst
      · simp [hk, hkp]
      · simp [hk, hkp]

theorem mapWithIndex_get (ts : List JVal) :
    ∀ (i0 j : Nat),
      (mapWithIndex fixTool i0 ts).get? j = (ts.get? j).map (fun t => fixTool (i0 + j) t) := by
  induction ts with
  | nil => intro i0 j; rfl
  | cons x r ih =>
    intro i0 j
    cases j with
    | zero => rfl
    | succ j2 =>
      show (mapWithIndex fixTool (i0 + 1) r).get? j2 = _
      rw [ih (i0 + 1) j2, show i0 + 1 + j2 = i0 + (j2 + 1) by omega]
      rfl

/-- C9 counterexample: an array is not a mapping, yet the sanitizer does
not return it unchanged: the spread in the descriptor rebuild turns the
array descriptor into a plain object carrying the fallback name. -/
theorem claim9_counterexample :
    repairToolsInInitializeResult (JVal.obj [("tools", JVal.arr [JVal.arr []])]) =
      JVal.obj [("tools", JVal.arr [JVal.obj [("name", JVal.str "tool_1")]])] ∧
    JVal.arr [] ≠ JVal.obj [("name", JVal.str "tool_1")] :=
  ⟨rfl, fun h => JVal.noConfusion h⟩

/-- C9 (amended): payloads without an array-valued tool list are returned
unchanged; with one, the repair maps the per-descriptor fix over the list
in order, preserving each descriptor's position; descriptors that are
neither objects nor arrays pass through unchanged (an array descriptor is
spread into an indexed object before the name is added); for an object
descriptor with a string name, only the name field is replaced, by the
claimed formula (replace characters outside the class, truncate to 64,
positional fallback when empty), every other key keeps its value, and the
field order is preserved, with a missing name appended at the end; the two
spec examples evaluate as claimed. -/
theorem claim9_amended :
    (∀ (r : JVal), hasToolsArr r = false → repairToolsInInitializeResult r = r) ∧
    (∀ (fs : List (String × JVal)) (l : List JVal),
        lookupF fs "tools" = some (JVal.arr l) →
        repairToolsInInitializeResult (JVal.obj fs) =
          JVal.obj (setFL fs "tools" (JVal.arr (mapWithIndex fixTool 0 l)))) ∧
    (∀ (i : Nat) (v : JVal), isObjLike v = false → fixTool i v = v) ∧
    (∀ (i : Nat) (fs : List (String × JVal)) (s : String),
        lookupF fs "name" = some (JVal.str s) →
        fixTool i (JVal.obj fs) =
          JVal.obj (setFL fs "name" (JVal.str (claimSanitize s i)))) ∧
    (∀ (i : Nat) (fs : List (String × JVal)) (key : String), key ≠ "name" →
        getF (fixTool i (JVal.obj fs)) key = getF (JVal.obj fs) key) ∧
    (∀ (i : Nat) (fs : List (String × JVal)), ∃ nm : String,
        fixTool i (JVal.obj fs) = JVal.obj (setFL fs "name" (JVal.str nm)) ∧
        keysOf (setFL fs "name" (JVal.str nm)) =
          (if "name" ∈ keysOf fs then keysOf fs else keysOf fs ++ ["name"])) ∧
    (∀ (ts : List JVal) (j : Nat),
        (mapWithIndex fixTool 0 ts).get? j = (ts.get? j).map (fun t => fixTool j t)) ∧
    claimSanitize "My Tool!!" 0 = "My_Tool__" ∧
    claimSanitize "" 1 = "tool_2" := by
  refine ⟨repair_no_tools, repair_tools, fixTool_not_objlike, ?_, ?_, ?_, ?_, rfl, rfl⟩
  · intro i fs s h
    rw [fixTool_obj]
    unfold nameArg
    simp only [getF, h]
    rfl
  · intro i fs key hk
    rw [fixTool_obj]
    exact getF_setF_ne _ _ _ _ (fun h => hk h.symm)
  · intro i fs
    refine ⟨sanitizeToolName (nameArg i (JVal.obj fs)) (fbName i), rfl, ?_⟩
    exact keysOf_setFL fs "name" _
  · intro ts j
    rw [mapWithIndex_get ts 0 j]
    simp

/-- C9 witness: the amended statement applied at concrete inputs: a payload
without a tool list, a repaired list with a dirty name, a primitive
descriptor, a preserved extra field, and a list position. -/
theorem claim9_witness :
    repairToolsInInitializeResult (JVal.num 3) = JVal.num 3 ∧
    fixTool 0 (JVal.obj [("name", JVal.str "My Tool!!"), ("desc", JVal.num 2)]) =
      JVal.obj (setFL [("name", JVal.str "My Tool!!"), ("desc", JVal.num 2)] "name"
        (JVal.str (claimSanitize "My Tool!!" 0))) ∧
    fixTool 4 (JVal.str "oops") = JVal.str "oops" ∧
    getF (fixTool 0 (JVal.obj [("name", JVal.str "My Tool!!"), ("desc", JVal.num 2)]))
        "desc" =
      getF (JVal.obj [("name", JVal.str "My Tool!!"), ("desc", JVal.num 2)]) "desc" ∧
    (mapWithIndex fixTool 0 [JVal.num 1, JVal.num 2]).get? 1 =
      ((([JVal.num 1, JVal.num 2] : List JVal).get? 1).map (fun t => fixTool 1 t)) :=
  ⟨claim9_amended.1 (JVal.num 3) rfl,
   claim9_amended.2.2.2.1 0 [("name", JVal.str "My Tool!!"), ("desc", JVal.num 2)]
     "My Tool!!" rfl,
   claim9_amended.2.2.1 4 (JVal.str "oops") rfl,
   claim9_amended.2.2.2.2.1 0 [("name", JVal.str "My Tool!!"), ("desc", JVal.num 2)]
     "desc" (by decide),
   claim9_amended.2.2.2.2.2.2.1 [JVal.num 1, JVal.num 2] 1⟩

end Bridge
